import Mathlib

/-!
Verification development for the URL-to-Google-Drive file upload service.

The repository is a NestJS backend: `POST /files/upload` accepts a list of
HTTP(S) URLs, downloads each file to a temporary path, uploads it to Google
Drive and records a row per successful upload.  The source contains two
variants of the upload-orchestration service (a p-limit variant and a
sequential-batch variant); both are embedded below.

Modelling conventions:
- JavaScript strings are modelled as `List Char` (named `Str`); `str` turns a
  Lean string literal into this representation.  All character-level string
  operations (trim, toLowerCase, split, includes) are given executable
  definitions that mirror the JavaScript semantics on the inputs exercised.
- Network and provider behaviour is an explicit oracle: each download attempt,
  each Google Drive call and each token refresh has its outcome supplied as
  data.  Oracle lists are consumed one entry per call; a designated
  `oracleExhaustedErr` value marks runs that would need a longer oracle (the
  real recursion in the drive client is unbounded when every retried upload
  fails with an auth error while refreshes succeed).
- JavaScript error objects are modelled by the record `JsErr` holding exactly
  the fields the code inspects: `code`, truthiness of `response`, the
  `response.status` field, truthiness of `request`, the axios marker, the
  HttpException status, and `message`.  A NestJS `HttpException e s` stores its
  first constructor argument in the `response` instance property, so the
  wrapped error has a truthy `response` whose `status` field is absent, and no
  `code` property.
- File-system operations (temp file creation and unlink) are modelled as
  succeeding; the model records whether the per-URL pipeline leaves the temp
  file behind.
-/

deriving instance DecidableEq for Except

namespace FileUpload

/-- Constants of the retry mechanism, from the top of both file service
variants. -/
def MAX_RETRIES : Nat := 3

/-- Initial backoff delay in milliseconds. -/
def INITIAL_BACKOFF_TIME : Nat := 1000

/-- Maximum backoff delay in milliseconds. -/
def MAX_BACKOFF_TIME : Nat := 60000

/-- Size threshold in bytes above which the large-file path is taken. -/
def CHUNK_SIZE : Nat := 5 * 1024 * 1024

/-- JavaScript strings, modelled as lists of characters. -/
abbrev Str := List Char

/-- Embed a Lean string literal as a modelled JavaScript string. -/
def str (s : String) : Str := s.data

/-- ASCII lower-casing of one character, as String.prototype.toLowerCase does
for the ASCII range used by the validated URLs. -/
def lowerChar (c : Char) : Char :=
  if c.isUpper then Char.ofNat (c.toNat + 32) else c

/-- Model of String.prototype.toLowerCase. -/
def lowerStr (s : Str) : Str := s.map lowerChar

/-- Model of String.prototype.trim. -/
def trimStr (s : Str) : Str :=
  ((s.dropWhile Char.isWhitespace).reverse.dropWhile Char.isWhitespace).reverse

/-- Split a string at the first occurrence of a character; the second
component keeps the splitting character. -/
def breakAtChar (c : Char) (s : Str) : Str × Str :=
  (s.takeWhile (fun d => d != c), s.dropWhile (fun d => d != c))

/-- Model of String.prototype.split with a one-character separator. -/
def splitOnChar (c : Char) : Str → List Str
  | [] => [[]]
  | d :: rest =>
    let r := splitOnChar c rest
    if d = c then [] :: r
    else
      match r with
      | [] => [[d]]
      | g :: gs => (d :: g) :: gs

/-- Locate the first occurrence of a substring, returning the pieces before
and after it. -/
def breakOnSub (pat : Str) : Str → Option (Str × Str)
  | [] => if pat = [] then some ([], []) else none
  | c :: rest =>
    if pat.isPrefixOf (c :: rest) then some ([], (c :: rest).drop pat.length)
    else
      match breakOnSub pat rest with
      | some (pre, post) => some (c :: pre, post)
      | none => none

/-- Model of String.prototype.includes. -/
def strHasSub (s pat : Str) : Bool :=
  (List.range (s.length + 1)).any (fun i => pat.isPrefixOf (s.drop i))

/-- Decimal rendering of a number, as JavaScript template interpolation
produces for a status code. -/
def natToStr (n : Nat) : Str := Nat.toDigits 10 n

/-- Components of a parsed URL, as exposed by the WHATWG URL class. -/
structure UrlParts where
  scheme : Str
  host : Str
  pathname : Str
  search : Str
  hash : Str
deriving DecidableEq, Repr

/-- Model of the WHATWG URL parser (the behaviour of new URL) on absolute
URLs of the shape scheme://host[/path][?query][#fragment], which covers every
input this service accepts; other inputs are rejected as the constructor
throwing. -/
def parseUrl (s : Str) : Option UrlParts :=
  match breakOnSub (str "://") s with
  | none => none
  | some (scheme, remainder) =>
    if scheme != [] && scheme.all Char.isAlpha then
      let host := remainder.takeWhile (fun c => c != '/' && c != '?' && c != '#')
      let rest := remainder.drop host.length
      if host = [] then none
      else
        let (beforeHash, hashPart) := breakAtChar '#' rest
        let (beforeSearch, searchPart) := breakAtChar '?' beforeHash
        let pathname := if beforeSearch = [] then str "/" else beforeSearch
        some ⟨lowerStr scheme, host, pathname, searchPart, hashPart⟩
    else none

/-- Model of path.extname: the suffix from the last dot of the name, empty
when there is no dot or the only dot is the leading character. -/
def extname (name : Str) : Str :=
  match name.reverse.findIdx? (fun c => c == '.') with
  | none => []
  | some k =>
    let idx := name.length - 1 - k
    if idx = 0 then [] else name.drop idx

/-- FileService.extractFileNameFromUrl: last segment of the parsed pathname,
with unknown-file as the fallback. -/
def extractFileNameFromUrl (url : Str) : Str :=
  match parseUrl url with
  | some p =>
    let fileName := (splitOnChar '/' p.pathname).getLastD []
    if fileName = [] then str "unknown-file" else fileName
  | none => str "unknown-file"

/-- Allow-list of the upload-files DTO (upload-files.dto.ts). -/
def SUPPORTED_FILE_EXTENSIONS : List Str :=
  [str "pdf", str "doc", str "docx", str "xls", str "xlsx", str "ppt",
   str "pptx", str "txt", str "csv", str "jpg", str "jpeg", str "png",
   str "gif", str "bmp", str "svg", str "webp", str "mp3", str "mp4",
   str "avi", str "mov", str "wmv", str "zip", str "rar", str "tar", str "gz"]

/-- Deny-list of the upload-files DTO. -/
def DANGEROUS_FILE_EXTENSIONS : List Str :=
  [str "exe", str "bat", str "cmd", str "sh", str "php", str "js",
   str "jar", str "dll", str "vbs", str "ps1"]

/-- Per-entry body of the Transform decorator of UploadFilesDto: trim the URL,
lower-case it, split the whole string on dots, take the last segment, and
throw on a deny-listed or unsupported extension. -/
def transformOneUrl (url : Str) : Except Str Str :=
  let u := trimStr url
  let lowercaseUrl := lowerStr u
  let extension := (splitOnChar '.' lowercaseUrl).getLastD []
  if DANGEROUS_FILE_EXTENSIONS.contains extension then
    Except.error (str "File extension \"" ++ extension ++
      str "\" is not allowed for security reasons")
  else if !(SUPPORTED_FILE_EXTENSIONS.contains extension) then
    Except.error (str "File extension \"" ++ extension ++ str "\" is not supported")
  else Except.ok u

/-- The Transform decorator maps the per-entry body over the array; the first
throw aborts the whole map, as Array.prototype.map does. -/
def transformUrls : List Str → Except Str (List Str)
  | [] => Except.ok []
  | u :: us =>
    match transformOneUrl u with
    | Except.error m => Except.error m
    | Except.ok t =>
      match transformUrls us with
      | Except.error m => Except.error m
      | Except.ok ts => Except.ok (t :: ts)

/-- The IsUrl validator with protocols http and https and a required
protocol. -/
def isValidHttpUrl (u : Str) : Bool :=
  match parseUrl u with
  | some p => p.scheme == str "http" || p.scheme == str "https"
  | none => false

/-- Errors a POST /files/upload request can be rejected with.  A throw inside
the Transform decorator escapes the ValidationPipe as a plain Error and is
rendered by the framework as a 500; class-validator failures become a 400; an
HttpException thrown by the service keeps its own status and payload. -/
inductive ReqError where
  | transformThrow (message : Str)
  | validationFail (messages : List Str)
  | http (status : Nat) (message : Str) (details : List (Str × Str))
deriving DecidableEq, Repr

/-- HTTP status under which each rejection reaches the client. -/
def statusOf : ReqError → Nat
  | ReqError.transformThrow _ => 500
  | ReqError.validationFail _ => 400
  | ReqError.http s _ _ => s

/-- Per-URL detail pairs carried by a rejection, when any. -/
def reqErrorDetails : ReqError → List (Str × Str)
  | ReqError.http _ _ d => d
  | _ => []

/-- The global ValidationPipe applied to UploadFilesDto: the Transform runs
first while the DTO instance is built, then the validators (ArrayMinSize 1,
ArrayMaxSize 10, IsUrl on each entry) run on the transformed value. -/
def validateUploadFilesDto (urls : List Str) : Except ReqError (List Str) :=
  match transformUrls urls with
  | Except.error m => Except.error (ReqError.transformThrow m)
  | Except.ok ts =>
    let msgs :=
      (if ts.length < 1 then [str "At least one file URL must be provided"] else []) ++
      (if ts.length > 10 then [str "Maximum 10 file URLs are allowed at once"] else []) ++
      (if ts.all isValidHttpUrl then [] else [str "Each URL must be a valid HTTP or HTTPS URL"])
    if msgs = [] then Except.ok ts else Except.error (ReqError.validationFail msgs)

/-- The code value carried by a JavaScript error: axios uses string codes such
as ECONNRESET, the Google client can use the number 401. -/
inductive JsCode where
  | str (s : Str)
  | num (n : Nat)
deriving DecidableEq, BEq, Repr

/-- A JavaScript error object, restricted to the fields the service
inspects. -/
structure JsErr where
  code : Option JsCode
  hasResponse : Bool
  responseStatus : Option Nat
  hasRequest : Bool
  isAxios : Bool
  httpStatus : Option Nat
  message : Str
deriving DecidableEq, Repr

/-- A plain Error value: only a message. -/
def plainError (msg : Str) : JsErr :=
  ⟨none, false, none, false, false, none, msg⟩

/-- A NestJS HttpException: the first constructor argument becomes the
(truthy) response property, which has no status field of its own, and the
second argument the HttpException status; there is no code property. -/
def httpException (msg : Str) (status : Nat) : JsErr :=
  ⟨none, true, none, false, false, some status, msg⟩

/-- The retryable-error test of processFileUpload and
uploadSingleFileWithRetry. -/
def isRetryable (error : JsErr) : Bool :=
  error.code == some (JsCode.str (str "ECONNRESET")) ||
  error.code == some (JsCode.str (str "ETIMEDOUT")) ||
  (error.hasResponse &&
    (match error.responseStatus with
     | some s => [429, 500, 502, 503, 504].contains s
     | none => false))

/-- The auth-error test of GoogleDriveService.uploadFile. -/
def isAuthRelated (error : JsErr) : Bool :=
  error.code == some (JsCode.num 401) ||
  strHasSub error.message (str "auth") ||
  strHasSub error.message (str "token") ||
  strHasSub error.message (str "Authentication required")

/-- Status interpolation in the wrap of a responded axios error; a missing
status field renders as undefined. -/
def statusText : Option Nat → Str
  | some s => natToStr s
  | none => str "undefined"

/-- The outer catch of uploadSingleFile: every error leaving the per-URL
pipeline is wrapped into an HttpException with status 400. -/
def wrapError (error : JsErr) : JsErr :=
  if error.isAxios then
    if error.hasResponse then
      httpException (str "Failed to download file: Server responded with status " ++
        statusText error.responseStatus) 400
    else if error.hasRequest then
      httpException (str "Failed to download file: No response received from server") 400
    else httpException (str "Failed to upload file: " ++ error.message) 400
  else httpException (str "Failed to upload file: " ++ error.message) 400

/-- Metadata captured by downloadFile. -/
structure FileMetadata where
  name : Str
  mimeType : Str
  size : Nat
deriving DecidableEq, Repr

/-- The persisted File row (Prisma model File). -/
structure FileRecord where
  name : Str
  mimeType : Str
  size : Nat
  driveFileId : Str
  driveUrl : Str
deriving DecidableEq, Repr

/-- A whole request: DTO validation runs first; only when it succeeds is the
file service invoked on the transformed URL list. -/
def fullRequest (svc : List Str → Except ReqError (List FileRecord))
    (urls : List Str) : Except ReqError (List FileRecord) :=
  match validateUploadFilesDto urls with
  | Except.error e => Except.error e
  | Except.ok ts => svc ts

/-- Result of a successful provider upload. -/
structure UploadFileResult where
  id : Str
  url : Str
deriving DecidableEq, Repr

/-- The view URL built from a drive file id. -/
def driveViewUrl (id : Str) : Str :=
  str "https://drive.google.com/file/d/" ++ id ++ str "/view"

/-- One outcome of a drive.files.create call: a response with an optional id
field, or a thrown error (which also covers a failing client
initialisation). -/
inductive DriveAttempt where
  | ok (id : Option Str)
  | err (e : JsErr)
deriving DecidableEq, Repr

/-- Error thrown when the provider response has no usable id. -/
def noIdErr : JsErr := plainError (str "File ID was not returned from Google Drive")

/-- The terminal error raised when the refresh-and-retry cycle fails. -/
def terminalAuthErr : JsErr :=
  plainError (str "Authentication expired. Please visit /auth/google to re-authenticate with Google Drive.")

/-- Marker for runs that would consume more oracle entries than supplied;
never produced on the code paths the theorems are about. -/
def oracleExhaustedErr : JsErr := plainError (str "model: outcome oracle exhausted")

/-- Downloaded file bytes. -/
abbrev FileContent := List Nat

/-- GoogleDriveService.uploadFile: try the drive call; a falsy id is an
error; on an auth-related error refresh the token once and, when the refresh
succeeds, retry by full recursion, turning any failure of that retry into the
terminal re-authentication error.  The second component counts the
refresh-and-retry cycles performed.  The content and metadata arguments feed
the request body; the response is supplied by the attempts oracle. -/
def googleDriveUploadFile (content : FileContent) (metadata : FileMetadata) :
    List DriveAttempt → List Bool → Except JsErr UploadFileResult × Nat
  | [], _ => (Except.error oracleExhaustedErr, 0)
  | attempt :: rest, refreshes =>
    let tryResult : Except JsErr UploadFileResult :=
      match attempt with
      | DriveAttempt.ok (some id) =>
        if id = [] then Except.error noIdErr
        else Except.ok ⟨id, driveViewUrl id⟩
      | DriveAttempt.ok none => Except.error noIdErr
      | DriveAttempt.err e => Except.error e
    match tryResult with
    | Except.ok v => (Except.ok v, 0)
    | Except.error e =>
      if isAuthRelated e then
        match refreshes with
        | [] => (Except.error oracleExhaustedErr, 0)
        | refreshOk :: rfs =>
          if refreshOk then
            match googleDriveUploadFile content metadata rest rfs with
            | (Except.ok v, n) => (Except.ok v, n + 1)
            | (Except.error _, n) => (Except.error terminalAuthErr, n + 1)
          else (Except.error terminalAuthErr, 1)
      else (Except.error e, 0)

/-- FileService.uploadLargeFile: opens a fresh read stream over the same temp
file, whose bytes are exactly the downloaded content, and performs the very
same single-shot provider call; no chunked or resumable protocol exists. -/
def uploadLargeFile (tempFileContent : FileContent) (metadata : FileMetadata)
    (attempts : List DriveAttempt) (refreshes : List Bool) :
    Except JsErr UploadFileResult × Nat :=
  googleDriveUploadFile tempFileContent metadata attempts refreshes

/-- FileService.saveToDB. -/
def saveToDB (fileName : Str) (metadata : FileMetadata)
    (uploadResult : UploadFileResult) : FileRecord :=
  ⟨fileName, metadata.mimeType, metadata.size, uploadResult.id, uploadResult.url⟩

/-- Outcome of downloadFile for one URL: the resolved metadata (with the size
reconciled against the bytes on disk) and content, or the rejection error. -/
inductive DownloadOutcome where
  | ok (metadata : FileMetadata) (content : FileContent)
  | err (e : JsErr)
deriving DecidableEq, Repr

/-- Environment of one uploadSingleFile call: the download outcome and the
provider-side oracles. -/
structure AttemptEnv where
  download : DownloadOutcome
  driveAttempts : List DriveAttempt
  refreshes : List Bool
deriving DecidableEq, Repr

/-- Observable result of one uploadSingleFile call: the returned or thrown
value, the database rows inserted, and whether the temp file is left on
disk. -/
structure SingleResult where
  result : Except JsErr FileRecord
  inserted : List FileRecord
  tempRemains : Bool
deriving DecidableEq, Repr

/-- FileService.uploadSingleFile: create the temp path (the write stream
inside downloadFile creates the file), download, choose the large or regular
upload path on the 5 MB threshold, save the row, and unlink the temp file;
on any error the inner catch unlinks the temp file and the outer catch wraps
the error into an HttpException. -/
def uploadSingleFile (url : Str) (env : AttemptEnv) : SingleResult :=
  match env.download with
  | DownloadOutcome.err e => ⟨Except.error (wrapError e), [], false⟩
  | DownloadOutcome.ok metadata content =>
    let fileName := extractFileNameFromUrl url
    let uploadResult :=
      if metadata.size > CHUNK_SIZE then
        uploadLargeFile content metadata env.driveAttempts env.refreshes
      else
        googleDriveUploadFile content metadata env.driveAttempts env.refreshes
    match uploadResult.1 with
    | Except.ok r =>
      let row := saveToDB fileName metadata r
      ⟨Except.ok row, [row], false⟩
    | Except.error e => ⟨Except.error (wrapError e), [], false⟩

/-- Modelled from the spec: the small-file single-shot upload path applied to
every file regardless of size, used to compare the large-file path against
the single-shot behaviour the spec describes. -/
def uploadSingleFileSingleShot (url : Str) (env : AttemptEnv) : SingleResult :=
  match env.download with
  | DownloadOutcome.err e => ⟨Except.error (wrapError e), [], false⟩
  | DownloadOutcome.ok metadata content =>
    let fileName := extractFileNameFromUrl url
    let uploadResult := googleDriveUploadFile content metadata env.driveAttempts env.refreshes
    match uploadResult.1 with
    | Except.ok r =>
      let row := saveToDB fileName metadata r
      ⟨Except.ok row, [row], false⟩
    | Except.error e => ⟨Except.error (wrapError e), [], false⟩

/-- Result of the per-URL retry loop: the final outcome and the list of
backoff waits performed, in order. -/
structure RetryResult where
  result : Except JsErr FileRecord
  waits : List Nat
deriving DecidableEq, Repr

/-- The while loop shared by processFileUpload (p-limit variant) and
uploadSingleFileWithRetry (batch variant): on a retryable error and remaining
attempts, wait for the current delay, double it with the 60000 cap, and try
again; a non-retryable error or exhaustion rethrows the last error.  The
list argument holds the outcomes of the remaining permitted attempts, so a
call with a list of length MAX_RETRIES - 1 models the full loop. -/
def retryGo : List (Except JsErr FileRecord) → Except JsErr FileRecord →
    Nat → List Nat → RetryResult
  | _, Except.ok file, _, waits => ⟨Except.ok file, waits⟩
  | rest, Except.error e, delay, waits =>
    if isRetryable e then
      match rest with
      | [] => ⟨Except.error e, waits⟩
      | o :: os => retryGo os o (min (delay * 2) MAX_BACKOFF_TIME) (waits ++ [delay])
    else ⟨Except.error e, waits⟩

/-- FileService.processFileUpload and FileService.uploadSingleFileWithRetry
(the two variants have identical bodies): run uploadSingleFile up to
MAX_RETRIES = 3 times under the retry loop, starting from the initial
backoff delay.  Each attempt has its own environment. -/
def processFileUpload (url : Str) (env1 env2 env3 : AttemptEnv) : RetryResult :=
  retryGo [(uploadSingleFile url env2).result, (uploadSingleFile url env3).result]
    (uploadSingleFile url env1).result INITIAL_BACKOFF_TIME []

/-- The backoff delay value before the wait with index n (0-based), following
the loop update delay = min(delay * 2, MAX_BACKOFF_TIME). -/
def backoffDelay : Nat → Nat
  | 0 => INITIAL_BACKOFF_TIME
  | n + 1 => min (backoffDelay n * 2) MAX_BACKOFF_TIME

/-- Allow-list of FileService.validateFileUrls (p-limit variant only). -/
def serviceExtensionAllowList : List Str :=
  [str ".jpg", str ".jpeg", str ".png", str ".gif", str ".pdf", str ".doc",
   str ".docx", str ".xls", str ".xlsx", str ".txt", str ".csv", str ".mp3",
   str ".mp4", str ".avi", str ".mov", str ".zip", str ".rar"]

/-- Per-URL body of validateFileUrls: URL constructibility, then the
extension of the extracted file name against the allow-list. -/
def serviceOffenseOf (url : Str) : Option (Str × Str) :=
  match parseUrl url with
  | none => some (url, str "Invalid URL format")
  | some _ =>
    let fileName := extractFileNameFromUrl url
    let fileExtension := lowerStr (extname fileName)
    if fileExtension = [] ∨ fileExtension = str "." then
      some (url, str "Missing file extension. Please provide a URL with a valid file extension.")
    else if !(serviceExtensionAllowList.contains fileExtension) then
      some (url, str "File extension \"" ++ fileExtension ++ str "\" is not supported.")
    else none

/-- FileService.validateFileUrls: collect every offending URL with its
reason; when any exist, throw a 400 HttpException carrying all of them. -/
def validateFileUrls (urls : List Str) : Option ReqError :=
  let invalidUrls := urls.filterMap serviceOffenseOf
  if invalidUrls.isEmpty then none
  else some (ReqError.http 400 (str "Invalid file URLs detected") invalidUrls)

/-- Successful payload of a settled per-URL outcome. -/
def exceptToOption : Except JsErr FileRecord → Option FileRecord
  | Except.ok f => some f
  | Except.error _ => none

/-- Failure pair pushed for a settled per-URL outcome. -/
def failurePairOf (p : Str × Except JsErr FileRecord) : Option (Str × Str) :=
  match p.2 with
  | Except.error e => some (p.1, e.message)
  | Except.ok _ => none

/-- The first rejection, which is what Promise.all rejects with. -/
def firstErr (results : List (Except JsErr FileRecord)) : Option JsErr :=
  results.findSome? (fun r =>
    match r with
    | Except.error e => some e
    | Except.ok _ => none)

/-- uploadFiles of the p-limit variant (part with pLimit): empty-list check,
validateFileUrls, then Promise.all over the per-URL uploads; any rejection
makes the whole batch throw a 400. -/
def uploadFilesA (urls : List Str) (results : List (Except JsErr FileRecord)) :
    Except ReqError (List FileRecord) :=
  if urls.isEmpty then
    Except.error (ReqError.http 400 (str "No file URLs provided") [])
  else
    match validateFileUrls urls with
    | some e => Except.error e
    | none =>
      match firstErr results with
      | some e =>
        Except.error (ReqError.http 400 (str "Failed to upload files: " ++ e.message) [])
      | none => Except.ok (results.filterMap exceptToOption)

/-- uploadFiles of the sequential-batch variant: settle every per-URL upload,
collecting successes and failure pairs; throw a 400 only when there were
failures and no success at all, and otherwise return the successes (failures
are only logged).  The per-URL outcomes are taken in order, which models the
accumulation the batches perform. -/
def uploadFilesB (items : List (Str × Except JsErr FileRecord)) :
    Except ReqError (List FileRecord) :=
  let uploadedFiles := items.filterMap (fun p => exceptToOption p.2)
  let failedUploads := items.filterMap failurePairOf
  if failedUploads.length > 0 ∧ uploadedFiles.length = 0 then
    Except.error (ReqError.http 400 (str "All file uploads failed") failedUploads)
  else Except.ok uploadedFiles

/-- Sample URL used by concrete runs. -/
def sampleUrl : Str := str "https://example.com/report.pdf"

/-- Sample download metadata. -/
def samplePdfMeta : FileMetadata := ⟨str "report.pdf", str "application/pdf", 2048⟩

/-- Sample downloaded bytes. -/
def sampleContent : FileContent := [37, 80, 68, 70]

/-- Sample axios rejection for an HTTP 503 response. -/
def axios503Err : JsErr :=
  ⟨none, true, some 503, true, true, none, str "Request failed with status code 503"⟩

/-- Attempt environment whose download fails with HTTP 503. -/
def env503 : AttemptEnv := ⟨DownloadOutcome.err axios503Err, [], []⟩

/-- Attempt environment where everything succeeds. -/
def envOkPdf : AttemptEnv :=
  ⟨DownloadOutcome.ok samplePdfMeta sampleContent,
   [DriveAttempt.ok (some (str "drive-id-1"))], []⟩

/-- The row produced by a successful run over envOkPdf. -/
def sampleRecord : FileRecord :=
  ⟨str "report.pdf", str "application/pdf", 2048, str "drive-id-1",
   driveViewUrl (str "drive-id-1")⟩

/-- Sample auth-related provider error (its message names the token). -/
def authTokenErr : JsErr := plainError (str "Invalid token")

/-- Sample wrapped per-URL failure, as the retry loop observes failures. -/
def sampleBoomErr : JsErr :=
  httpException (str "Failed to download file: Server responded with status 404") 400

/-- Closed form of the backoff recurrence delay = min(delay * 2, cap). -/
theorem backoffDelay_eq (n : Nat) :
    backoffDelay n = min (INITIAL_BACKOFF_TIME * 2 ^ n) MAX_BACKOFF_TIME := by
  induction n with
  | zero =>
    simp [backoffDelay, INITIAL_BACKOFF_TIME, MAX_BACKOFF_TIME]
  | succ n ih =>
    have hpow : INITIAL_BACKOFF_TIME * 2 ^ (n + 1) = INITIAL_BACKOFF_TIME * 2 ^ n * 2 := by
      ring
    simp only [backoffDelay, ih, hpow]
    omega

/-- The waits accumulated by the retry loop always form an initial segment of
the backoff schedule. -/
theorem retryGo_waits_backoff (rest : List (Except JsErr FileRecord)) :
    ∀ (o : Except JsErr FileRecord) (k : Nat),
      ∃ m, (retryGo rest o (backoffDelay k) ((List.range k).map backoffDelay)).waits =
        (List.range m).map backoffDelay := by
  induction rest with
  | nil =>
    intro o k
    refine ⟨k, ?_⟩
    cases o with
    | ok f => rfl
    | error e =>
      simp only [retryGo]
      split <;> rfl
  | cons o' os ih =>
    intro o k
    cases o with
    | ok f => exact ⟨k, rfl⟩
    | error e =>
      simp only [retryGo]
      split
      · have hdelay : min (backoffDelay k * 2) MAX_BACKOFF_TIME = backoffDelay (k + 1) := rfl
        have hwaits : (List.range k).map backoffDelay ++ [backoffDelay k] =
            (List.range (k + 1)).map backoffDelay := by
          simp [List.range_succ]
        rw [hdelay, hwaits]
        exact ih o' (k + 1)
      · exact ⟨k, rfl⟩

/-- The Transform keeps the array length when it does not throw. -/
theorem transformUrls_length :
    ∀ (urls ts : List Str), transformUrls urls = Except.ok ts → ts.length = urls.length := by
  intro urls
  induction urls with
  | nil =>
    intro ts h
    simp only [transformUrls] at h
    cases h
    rfl
  | cons u us ih =>
    intro ts h
    simp only [transformUrls] at h
    cases h1 : transformOneUrl u with
    | error m => rw [h1] at h; cases h
    | ok t =>
      rw [h1] at h
      cases h2 : transformUrls us with
      | error m => rw [h2] at h; cases h
      | ok ts' =>
        rw [h2] at h
        cases h
        simp [ih ts' h2]

/-- Oversize batches that survive the Transform are rejected by the
ArrayMaxSize validator. -/
theorem dtoOversizeRejected (urls ts : List Str) (h10 : urls.length > 10)
    (ht : transformUrls urls = Except.ok ts) :
    ∃ msgs, validateUploadFilesDto urls = Except.error (ReqError.validationFail msgs) ∧
      str "Maximum 10 file URLs are allowed at once" ∈ msgs := by
  have hlen : ts.length = urls.length := transformUrls_length urls ts ht
  simp only [validateUploadFilesDto, ht]
  have hnotmin : ¬ ts.length < 1 := by omega
  have hmax : ts.length > 10 := by omega
  refine ⟨(if ts.length < 1 then [str "At least one file URL must be provided"] else []) ++
    (if ts.length > 10 then [str "Maximum 10 file URLs are allowed at once"] else []) ++
    (if ts.all isValidHttpUrl then [] else [str "Each URL must be a valid HTTP or HTTPS URL"]), ?_, ?_⟩
  · rw [if_neg]
    simp [hnotmin, hmax]
  · simp [hnotmin, hmax]

/-- A successful drive upload returns an id that some attempt actually
produced, and that id is non-empty. -/
theorem googleDriveUploadFile_fst_ok_mem (content : FileContent) (metadata : FileMetadata) :
    ∀ (attempts : List DriveAttempt) (refreshes : List Bool) (v : UploadFileResult),
      (googleDriveUploadFile content metadata attempts refreshes).1 = Except.ok v →
      DriveAttempt.ok (some v.id) ∈ attempts ∧ v.id ≠ [] := by
  intro attempts
  induction attempts with
  | nil =>
    intro refreshes v h
    simp [googleDriveUploadFile] at h
  | cons a rest ih =>
    intro refreshes v h
    simp only [googleDriveUploadFile] at h
    cases a with
    | ok oid =>
      cases oid with
      | some id =>
        dsimp only at h
        by_cases hid : id = []
        · rw [if_pos hid] at h
          dsimp only at h
          rw [if_neg (by decide : ¬ isAuthRelated noIdErr = true)] at h
          cases h
        · rw [if_neg hid] at h
          dsimp only at h
          cases h
          exact ⟨List.mem_cons_self _ _, hid⟩
      | none =>
        dsimp only at h
        rw [if_neg (by decide : ¬ isAuthRelated noIdErr = true)] at h
        cases h
    | err e =>
      dsimp only at h
      by_cases hauth : isAuthRelated e
      · rw [if_pos hauth] at h
        cases refreshes with
        | nil => cases h
        | cons refreshOk rfs =>
          dsimp only at h
          by_cases hr : refreshOk = true
          · rw [if_pos hr] at h
            rcases hinner : googleDriveUploadFile content metadata rest rfs with ⟨r', n'⟩
            rw [hinner] at h
            cases r' with
            | ok v' =>
              dsimp only at h
              cases h
              have := ih rfs v (by rw [hinner])
              exact ⟨List.mem_cons_of_mem _ this.1, this.2⟩
            | error e' => cases h
          · rw [if_neg hr] at h
            cases h
      · rw [if_neg hauth] at h
        cases h

/-- Claim C1, counterexample: in the p-limit variant of uploadFiles, a batch
of two valid URLs where the first upload succeeds and the second fails does
not return the successful record; the whole batch is rejected with a 400,
even though filtering the same outcomes yields exactly one success. -/
theorem C1_counterexample :
    uploadFilesA [str "https://cdn.example.com/f1.pdf", str "https://cdn.example.com/f2.pdf"]
        [Except.ok sampleRecord, Except.error sampleBoomErr] =
      Except.error (ReqError.http 400
        (str "Failed to upload files: " ++ sampleBoomErr.message) []) ∧
    [Except.ok sampleRecord, Except.error sampleBoomErr].filterMap exceptToOption =
      [sampleRecord] := by
  constructor
  · decide
  · decide

/-- Claim C1, amended: the sequential-batch variant aggregates per-URL
successes and failures, throwing a 400 only when every item failed and
returning exactly the successful records otherwise, with failures absent
from the payload; the p-limit variant instead fails the whole batch with a
400 whenever any single item fails. -/
theorem C1_amended_aggregation :
    (∀ items : List (Str × Except JsErr FileRecord),
        items.filterMap (fun p => exceptToOption p.2) ≠ [] →
        uploadFilesB items = Except.ok (items.filterMap (fun p => exceptToOption p.2))) ∧
    (∀ items : List (Str × Except JsErr FileRecord),
        items ≠ [] →
        items.filterMap (fun p => exceptToOption p.2) = [] →
        uploadFilesB items =
          Except.error (ReqError.http 400 (str "All file uploads failed")
            (items.filterMap failurePairOf))) ∧
    (∀ (urls : List Str) (results : List (Except JsErr FileRecord)) (e : JsErr),
        urls ≠ [] → validateFileUrls urls = none → firstErr results = some e →
        uploadFilesA urls results =
          Except.error (ReqError.http 400
            (str "Failed to upload files: " ++ e.message) [])) := by
  refine ⟨?_, ?_, ?_⟩
  · intro items hne
    simp only [uploadFilesB]
    rw [if_neg]
    intro hc
    exact hne (List.length_eq_zero.mp hc.2)
  · intro items hne hempty
    simp only [uploadFilesB]
    rw [if_pos]
    refine ⟨?_, by rw [hempty]; rfl⟩
    cases items with
    | nil => exact absurd rfl hne
    | cons p ps =>
      cases hp : p.2 with
      | ok f =>
        exfalso
        rw [List.filterMap_cons] at hempty
        simp [exceptToOption, hp] at hempty
      | error e =>
        rw [List.filterMap_cons]
        simp [failurePairOf, hp]
  · intro urls results e hne hval hfirst
    cases urls with
    | nil => exact absurd rfl hne
    | cons u us =>
      simp only [uploadFilesA, List.isEmpty_cons, hval, hfirst]
      rfl

/-- Claim C1, witness: the amended aggregation facts hold on concrete
batches. -/
theorem C1_witness :
    uploadFilesB [(str "https://cdn.example.com/f1.pdf", Except.ok sampleRecord),
                  (str "https://cdn.example.com/f2.pdf", Except.error sampleBoomErr)] =
      Except.ok [sampleRecord] ∧
    uploadFilesB [(str "https://cdn.example.com/f2.pdf", Except.error sampleBoomErr)] =
      Except.error (ReqError.http 400 (str "All file uploads failed")
        [(str "https://cdn.example.com/f2.pdf", sampleBoomErr.message)]) ∧
    uploadFilesA [str "https://cdn.example.com/f1.pdf"] [Except.error sampleBoomErr] =
      Except.error (ReqError.http 400
        (str "Failed to upload files: " ++ sampleBoomErr.message) []) :=
  ⟨C1_amended_aggregation.1 _ (by decide),
   C1_amended_aggregation.2.1 _ (by decide) (by decide),
   C1_amended_aggregation.2.2 _ _ sampleBoomErr (by decide) (by decide) (by decide)⟩

/-- Claim C2: every error leaving the per-URL pipeline has already been
wrapped into an HttpException, which the retryable-error test never accepts,
so the transient-error retry can never fire; in particular a URL whose
download yields HTTP 503, HTTP 503 and then success fails immediately with
zero retries (no waits) instead of succeeding after two retries. -/
theorem C2_wrapping_defeats_retry :
    (∀ e : JsErr, isRetryable (wrapError e) = false) ∧
    processFileUpload sampleUrl env503 env503 envOkPdf =
      ⟨Except.error (httpException
        (str "Failed to download file: Server responded with status 503") 400), []⟩ := by
  constructor
  · intro e
    obtain ⟨c, hr, rs, hq, ax, hs, m⟩ := e
    unfold wrapError
    cases ax <;> cases hr <;> cases hq <;> rfl
  · decide

/-- Claim C3, counterexample: when the upload fails with an auth error, the
refresh succeeds, and the retried upload fails with an auth error again, the
adapter performs a second refresh-and-retry cycle (and here even succeeds),
instead of surfacing the terminal re-authentication error after one cycle. -/
theorem C3_counterexample :
    googleDriveUploadFile sampleContent samplePdfMeta
      [DriveAttempt.err authTokenErr, DriveAttempt.err authTokenErr,
       DriveAttempt.ok (some (str "drive-id-7"))] [true, true] =
      (Except.ok ⟨str "drive-id-7", driveViewUrl (str "drive-id-7")⟩, 2) := by
  decide

/-- Claim C3, amended: on an auth error a refresh-and-retry cycle runs; a
failing refresh, or a non-auth failure of the retried upload, surfaces the
terminal re-authentication error after that single cycle; but an auth
failure of the retried upload triggers a further refresh-and-retry cycle
rather than the terminal error. -/
theorem C3_amended_refresh_cycles :
    (∀ (content : FileContent) (metadata : FileMetadata) (e : JsErr)
        (rest : List DriveAttempt) (rfs : List Bool),
        isAuthRelated e = true →
        googleDriveUploadFile content metadata (DriveAttempt.err e :: rest) (false :: rfs) =
          (Except.error terminalAuthErr, 1)) ∧
    (∀ (content : FileContent) (metadata : FileMetadata) (e e2 : JsErr)
        (rest : List DriveAttempt) (rfs : List Bool),
        isAuthRelated e = true → isAuthRelated e2 = false →
        googleDriveUploadFile content metadata
          (DriveAttempt.err e :: DriveAttempt.err e2 :: rest) (true :: rfs) =
          (Except.error terminalAuthErr, 1)) ∧
    (∀ (content : FileContent) (metadata : FileMetadata) (e : JsErr) (id : Str)
        (rest : List DriveAttempt) (rfs : List Bool),
        isAuthRelated e = true → id ≠ [] →
        googleDriveUploadFile content metadata
          (DriveAttempt.err e :: DriveAttempt.err e :: DriveAttempt.ok (some id) :: rest)
          (true :: true :: rfs) =
          (Except.ok ⟨id, driveViewUrl id⟩, 2)) := by
  refine ⟨?_, ?_, ?_⟩
  · intro content metadata e rest rfs hauth
    simp [googleDriveUploadFile, hauth]
  · intro content metadata e e2 rest rfs hauth hnot
    simp [googleDriveUploadFile, hauth, hnot]
  · intro content metadata e id rest rfs hauth hid
    simp [googleDriveUploadFile, hauth, hid]

/-- Claim C3, witness: the amended refresh-cycle facts hold on concrete
oracles. -/
theorem C3_witness :
    googleDriveUploadFile sampleContent samplePdfMeta
      [DriveAttempt.err authTokenErr] [false] = (Except.error terminalAuthErr, 1) ∧
    googleDriveUploadFile sampleContent samplePdfMeta
      [DriveAttempt.err authTokenErr, DriveAttempt.err noIdErr] [true] =
      (Except.error terminalAuthErr, 1) ∧
    googleDriveUploadFile sampleContent samplePdfMeta
      [DriveAttempt.err authTokenErr, DriveAttempt.err authTokenErr,
       DriveAttempt.ok (some (str "drive-id-9"))] [true, true] =
      (Except.ok ⟨str "drive-id-9", driveViewUrl (str "drive-id-9")⟩, 2) :=
  ⟨C3_amended_refresh_cycles.1 sampleContent samplePdfMeta authTokenErr [] [] (by decide),
   C3_amended_refresh_cycles.2.1 sampleContent samplePdfMeta authTokenErr noIdErr [] []
     (by decide) (by decide),
   C3_amended_refresh_cycles.2.2 sampleContent samplePdfMeta authTokenErr
     (str "drive-id-9") [] [] (by decide) (by decide)⟩

/-- Claim C4: the waits the retry loop performs follow the schedule
min(1000 * 2^n, 60000): the n-th wait (0-based) is the capped doubled delay,
so the first wait is 1000 ms and no wait exceeds 60000 ms. -/
theorem C4_backoff_schedule (o : Except JsErr FileRecord)
    (rest : List (Except JsErr FileRecord)) :
    (retryGo rest o INITIAL_BACKOFF_TIME []).waits =
      (List.range (retryGo rest o INITIAL_BACKOFF_TIME []).waits.length).map
        (fun n => min (INITIAL_BACKOFF_TIME * 2 ^ n) MAX_BACKOFF_TIME) := by
  obtain ⟨m, hm⟩ := retryGo_waits_backoff rest o 0
  have hm' : (retryGo rest o INITIAL_BACKOFF_TIME []).waits =
      (List.range m).map backoffDelay := hm
  rw [hm', List.length_map, List.length_range,
    show backoffDelay = fun n => min (INITIAL_BACKOFF_TIME * 2 ^ n) MAX_BACKOFF_TIME
      from funext backoffDelay_eq]

/-- Claim C5, counterexample: a batch of 11 URLs whose entries carry a
deny-listed extension is rejected by the Transform throw, which surfaces as
a 500, not as the claimed 400. -/
theorem C5_counterexample :
    validateUploadFilesDto (List.replicate 11 (str "https://example.com/setup.exe")) =
      Except.error (ReqError.transformThrow
        (str "File extension \"exe\" is not allowed for security reasons")) ∧
    statusOf (ReqError.transformThrow
      (str "File extension \"exe\" is not allowed for security reasons")) = 500 := by
  constructor
  · decide
  · decide

/-- Claim C5, amended: an empty batch is rejected with the 400 ArrayMinSize
failure before the service runs; a batch of more than 10 URLs is always
rejected before the service runs, with the 400 ArrayMaxSize failure whenever
the Transform does not throw first; in either case no service (hence no
network) call takes place, whichever service is installed. -/
theorem C5_amended_size_bounds :
    (∀ svc, fullRequest svc [] =
        Except.error (ReqError.validationFail
          [str "At least one file URL must be provided"])) ∧
    (∀ (urls ts : List Str), urls.length > 10 → transformUrls urls = Except.ok ts →
        ∃ msgs, validateUploadFilesDto urls =
            Except.error (ReqError.validationFail msgs) ∧
          str "Maximum 10 file URLs are allowed at once" ∈ msgs) ∧
    (∀ urls : List Str, urls.length > 10 →
        ∃ e, validateUploadFilesDto urls = Except.error e) ∧
    (∀ (urls : List Str) svc1 svc2, urls = [] ∨ urls.length > 10 →
        fullRequest svc1 urls = fullRequest svc2 urls) := by
  refine ⟨?_, ?_, ?_, ?_⟩
  · intro svc
    rfl
  · intro urls ts h10 ht
    exact dtoOversizeRejected urls ts h10 ht
  · intro urls h10
    cases ht : transformUrls urls with
    | error m =>
      exact ⟨ReqError.transformThrow m, by simp [validateUploadFilesDto, ht]⟩
    | ok ts =>
      obtain ⟨msgs, hmsgs, _⟩ := dtoOversizeRejected urls ts h10 ht
      exact ⟨ReqError.validationFail msgs, hmsgs⟩
  · intro urls svc1 svc2 hcase
    cases hv : validateUploadFilesDto urls with
    | error e => simp [fullRequest, hv]
    | ok ts =>
      exfalso
      cases hcase with
      | inl h0 =>
        subst h0
        exact Except.noConfusion hv
      | inr h10 =>
        cases ht : transformUrls urls with
        | error m => simp [validateUploadFilesDto, ht] at hv
        | ok ts' =>
          obtain ⟨msgs, hmsgs, _⟩ := dtoOversizeRejected urls ts' h10 ht
          rw [hmsgs] at hv
          exact Except.noConfusion hv

/-- Claim C5, witness: the size-bound facts hold on concrete requests. -/
theorem C5_witness :
    fullRequest (fun _ => Except.ok []) [] =
      Except.error (ReqError.validationFail
        [str "At least one file URL must be provided"]) ∧
    (∃ msgs, validateUploadFilesDto (List.replicate 11 (str "https://example.com/a.pdf")) =
        Except.error (ReqError.validationFail msgs) ∧
      str "Maximum 10 file URLs are allowed at once" ∈ msgs) ∧
    (∃ e, validateUploadFilesDto (List.replicate 11 (str "https://example.com/b.exe")) =
        Except.error e) ∧
    fullRequest (fun _ => Except.ok [sampleRecord])
        (List.replicate 11 (str "https://example.com/a.pdf")) =
      fullRequest (fun _ => Except.error (ReqError.http 400 (str "unused") []))
        (List.replicate 11 (str "https://example.com/a.pdf")) :=
  ⟨C5_amended_size_bounds.1 _,
   C5_amended_size_bounds.2.1 _ (List.replicate 11 (str "https://example.com/a.pdf"))
     (by decide) (by decide),
   C5_amended_size_bounds.2.2.1 _ (by decide),
   C5_amended_size_bounds.2.2.2 _ _ _ (Or.inr (by decide))⟩

/-- Claim C6, counterexample: a batch with two offending URLs (a deny-listed
extension and an unsupported one) is rejected by the Transform naming only
the first extension: the resulting error carries no per-URL details and does
not even mention the second offending URL, although that URL is offending
by the service-level check as well. -/
theorem C6_counterexample :
    validateUploadFilesDto
        [str "https://a.example.com/x.exe", str "https://b.example.com/y.xyz"] =
      Except.error (ReqError.transformThrow
        (str "File extension \"exe\" is not allowed for security reasons")) ∧
    reqErrorDetails (ReqError.transformThrow
      (str "File extension \"exe\" is not allowed for security reasons")) = [] ∧
    strHasSub (str "File extension \"exe\" is not allowed for security reasons")
      (str "y.xyz") = false ∧
    serviceOffenseOf (str "https://b.example.com/y.xyz") =
      some (str "https://b.example.com/y.xyz",
        str "File extension \".xyz\" is not supported.") ∧
    transformOneUrl (str "https://b.example.com/y.xyz") =
      Except.error (str "File extension \"xyz\" is not supported") := by
  refine ⟨by decide, by decide, by decide, by decide, by decide⟩

/-- Claim C6, amended: whole-batch rejection holds at both layers, and the
service-level validateFileUrls reports every offending URL with its reason;
the DTO-level Transform instead throws for a single offending entry of the
batch, with a message derived from the extension alone. -/
theorem C6_amended_offense_reporting :
    (∀ (urls : List Str) (u r : Str), u ∈ urls → serviceOffenseOf u = some (u, r) →
        ∃ d, validateFileUrls urls =
            some (ReqError.http 400 (str "Invalid file URLs detected") d) ∧
          (u, r) ∈ d) ∧
    (∀ urls : List Str, urls.filterMap serviceOffenseOf = [] →
        validateFileUrls urls = none) ∧
    (∀ (urls : List Str) (m : Str), transformUrls urls = Except.error m →
        ∃ u, u ∈ urls ∧ transformOneUrl u = Except.error m) := by
  refine ⟨?_, ?_, ?_⟩
  · intro urls u r hu hoff
    have hmem : (u, r) ∈ urls.filterMap serviceOffenseOf :=
      List.mem_filterMap.mpr ⟨u, hu, hoff⟩
    refine ⟨urls.filterMap serviceOffenseOf, ?_, hmem⟩
    simp only [validateFileUrls]
    rw [if_neg]
    intro hemp
    rw [List.isEmpty_iff] at hemp
    rw [hemp] at hmem
    exact List.not_mem_nil _ hmem
  · intro urls h
    simp [validateFileUrls, h]
  · intro urls
    induction urls with
    | nil =>
      intro m h
      simp [transformUrls] at h
    | cons u us ih =>
      intro m h
      simp only [transformUrls] at h
      cases h1 : transformOneUrl u with
      | error m' =>
        rw [h1] at h
        cases h
        exact ⟨u, List.mem_cons_self _ _, h1⟩
      | ok t =>
        rw [h1] at h
        cases h2 : transformUrls us with
        | error m' =>
          rw [h2] at h
          cases h
          obtain ⟨u', hu', ht⟩ := ih _ h2
          exact ⟨u', List.mem_cons_of_mem _ hu', ht⟩
        | ok ts =>
          rw [h2] at h
          cases h

/-- Claim C6, witness: the amended reporting facts hold on concrete
batches. -/
theorem C6_witness :
    (∃ d, validateFileUrls
          [str "https://a.example.com/ok.pdf", str "https://b.example.com/y.xyz"] =
        some (ReqError.http 400 (str "Invalid file URLs detected") d) ∧
      (str "https://b.example.com/y.xyz",
        str "File extension \".xyz\" is not supported.") ∈ d) ∧
    validateFileUrls [str "https://a.example.com/ok.pdf"] = none ∧
    (∃ u, u ∈ [str "https://a.example.com/x.exe"] ∧
      transformOneUrl u = Except.error
        (str "File extension \"exe\" is not allowed for security reasons")) :=
  ⟨C6_amended_offense_reporting.1 _ (str "https://b.example.com/y.xyz")
     (str "File extension \".xyz\" is not supported.") (by decide) (by decide),
   C6_amended_offense_reporting.2.1 _ (by decide),
   C6_amended_offense_reporting.2.2 _
     (str "File extension \"exe\" is not allowed for security reasons") (by decide)⟩

/-- Claim C7: a row reaches the database only on the fully successful path:
any inserted row is the returned record, its drive id was produced by an
actual provider response, and that id is non-empty; conversely every failing
run inserts nothing. -/
theorem C7_record_only_after_confirmed_id :
    (∀ (url : Str) (env : AttemptEnv) (f : FileRecord),
        f ∈ (uploadSingleFile url env).inserted →
        (uploadSingleFile url env).result = Except.ok f ∧
        DriveAttempt.ok (some f.driveFileId) ∈ env.driveAttempts ∧
        f.driveFileId ≠ []) ∧
    (∀ (url : Str) (env : AttemptEnv) (e : JsErr),
        (uploadSingleFile url env).result = Except.error e →
        (uploadSingleFile url env).inserted = []) := by
  constructor
  · intro url env f hf
    obtain ⟨d, atts, rfs⟩ := env
    cases d with
    | err e => simp [uploadSingleFile] at hf
    | ok metadata content =>
      simp only [uploadSingleFile, uploadLargeFile, ite_self] at hf ⊢
      generalize hg : (googleDriveUploadFile content metadata atts rfs).1 = ur at hf ⊢
      cases ur with
      | ok r =>
        dsimp only at hf ⊢
        rw [List.mem_singleton] at hf
        subst hf
        refine ⟨rfl, ?_, ?_⟩
        · exact (googleDriveUploadFile_fst_ok_mem content metadata atts rfs r hg).1
        · exact (googleDriveUploadFile_fst_ok_mem content metadata atts rfs r hg).2
      | error e =>
        simp at hf
  · intro url env e he
    obtain ⟨d, atts, rfs⟩ := env
    cases d with
    | err e2 => rfl
    | ok metadata content =>
      simp only [uploadSingleFile, uploadLargeFile, ite_self] at he ⊢
      generalize hg : (googleDriveUploadFile content metadata atts rfs).1 = ur at he ⊢
      cases ur with
      | ok r =>
        dsimp only at he
        exact Except.noConfusion he
      | error e2 => rfl

/-- Claim C7, witness: a fully successful concrete run inserts exactly the
returned record with the provider-confirmed id, and a failing concrete run
inserts nothing. -/
theorem C7_witness :
    sampleRecord ∈ (uploadSingleFile sampleUrl envOkPdf).inserted ∧
    (uploadSingleFile sampleUrl envOkPdf).result = Except.ok sampleRecord ∧
    DriveAttempt.ok (some sampleRecord.driveFileId) ∈ envOkPdf.driveAttempts ∧
    sampleRecord.driveFileId ≠ [] ∧
    (uploadSingleFile sampleUrl env503).inserted = [] := by
  have hmem : sampleRecord ∈ (uploadSingleFile sampleUrl envOkPdf).inserted := by decide
  have h := C7_record_only_after_confirmed_id.1 sampleUrl envOkPdf sampleRecord hmem
  have h2 := C7_record_only_after_confirmed_id.2 sampleUrl env503
    (httpException (str "Failed to download file: Server responded with status 503") 400)
    (by decide)
  exact ⟨hmem, h.1, h.2.1, h.2.2, h2⟩

/-- Claim C8: whatever the download and provider outcomes, the per-URL
pipeline never leaves its temp file behind: the cleanup unlink runs on the
success path and in the catch of every failure path. -/
theorem C8_temp_file_removed_every_path (url : Str) (env : AttemptEnv) :
    (uploadSingleFile url env).tempRemains = false := by
  obtain ⟨d, atts, rfs⟩ := env
  cases d with
  | err e => rfl
  | ok metadata content =>
    simp only [uploadSingleFile, uploadLargeFile, ite_self]
    generalize (googleDriveUploadFile content metadata atts rfs).1 = ur
    cases ur with
    | ok r => rfl
    | error e => rfl

/-- Claim C9: the dedicated large-file path is extensionally the single-shot
provider call: uploadLargeFile performs exactly the googleDriveUploadFile
call on the temp-file content and metadata, and the whole per-URL pipeline
is equal to its spec-modelled variant that uses the single-shot small-file
path for every size. -/
theorem C9_large_path_single_shot :
    (∀ (content : FileContent) (metadata : FileMetadata)
        (attempts : List DriveAttempt) (refreshes : List Bool),
        uploadLargeFile content metadata attempts refreshes =
          googleDriveUploadFile content metadata attempts refreshes) ∧
    (∀ (url : Str) (env : AttemptEnv),
        uploadSingleFile url env = uploadSingleFileSingleShot url env) := by
  refine ⟨fun _ _ _ _ => rfl, ?_⟩
  intro url env
  obtain ⟨d, atts, rfs⟩ := env
  cases d with
  | err e => rfl
  | ok metadata content =>
    simp only [uploadSingleFile, uploadSingleFileSingleShot, uploadLargeFile, ite_self]

/-- Claim C10: the DTO-level extension check splits the entire trimmed,
lower-cased URL on dots and takes the last segment, ignoring the parsed
path: a valid HTTPS URL whose path ends in an allow-listed extension but
which carries a query string is rejected, while a URL whose path ends in a
deny-listed extension but whose fragment ends in an allow-listed one passes
the DTO check. -/
theorem C10_extension_from_whole_url :
    (splitOnChar '.' (lowerStr (trimStr
        (str "https://example.com/file.pdf?download=1")))).getLastD [] =
      str "pdf?download=1" ∧
    Option.map UrlParts.pathname
        (parseUrl (str "https://example.com/file.pdf?download=1")) =
      some (str "/file.pdf") ∧
    validateUploadFilesDto [str "https://example.com/file.pdf?download=1"] =
      Except.error (ReqError.transformThrow
        (str "File extension \"pdf?download=1\" is not supported")) ∧
    (splitOnChar '.' (lowerStr (trimStr
        (str "https://example.com/run.exe#.pdf")))).getLastD [] = str "pdf" ∧
    Option.map UrlParts.pathname
        (parseUrl (str "https://example.com/run.exe#.pdf")) =
      some (str "/run.exe") ∧
    validateUploadFilesDto [str "https://example.com/run.exe#.pdf"] =
      Except.ok [str "https://example.com/run.exe#.pdf"] := by
  refine ⟨by decide, by decide, by decide, by decide, by decide, by decide⟩

end FileUpload
